import Mathlib

/-!
Shallow embedding of the run_webset_research tool handler
(src/src/tools/websetResearch.ts) and proofs about its workflow:
credential check, creation payload construction, the optional bounded
polling loop, and the error conversion at the workflow boundary.

The network is modelled as an oracle giving the outcome of each HTTP
call; the handler is a total function from the environment, the
validated arguments and the oracle to the ordered list of observable
side effects (HTTP calls and sleeps) together with the returned tool
result.
-/

namespace WebsetResearch

/-- An enrichment task applied to each found item (enrichmentSchema,
lines 14-17 of the source). -/
structure Enrichment where
  description : String
  format : String
deriving DecidableEq, Repr

/-- The arguments the handler receives after schema validation
(lines 23-35): query is required, the other fields are optional, and
waitForCompletion already has its default of true applied by the
schema layer. Metadata values are opaque; only presence matters. -/
structure Args where
  query : String
  count : Option Int
  criteria : Option String
  entityType : Option String
  enrichments : Option (List Enrichment)
  metadata : Option (List (String × String))
  waitForCompletion : Bool
deriving DecidableEq, Repr

/-- search portion of the creation payload (ExaWebsetSearchConfig). -/
structure SearchConfig where
  query : String
  count : Option Int
deriving DecidableEq, Repr

/-- entity portion of the creation payload (ExaWebsetEntityConfig). -/
structure EntityConfig where
  type : String
deriving DecidableEq, Repr

/-- The creation payload (ExaWebsetCreateRequest). A field that is none
is absent from the serialized JSON body: the spread construction at
lines 63-72 inserts a key only when its guard is truthy, so no key is
ever present with a null or empty placeholder value. -/
structure CreateRequest where
  search : SearchConfig
  criteria : Option String
  entity : Option EntityConfig
  enrichments : Option (List Enrichment)
  metadata : Option (List (String × String))
deriving DecidableEq, Repr

/-- JavaScript truthiness of an optional number: absent and 0 are falsy. -/
def jsTruthyInt : Option Int → Bool
  | none => false
  | some n => n != 0

/-- JavaScript truthiness of an optional string: absent and empty are falsy. -/
def jsTruthyStr : Option String → Bool
  | none => false
  | some s => s != ""

/-- The creation payload built by the handler (websetParams, lines
63-72). Each optional key is included only when its guard expression is
truthy: count via the bare number, criteria and entityType via the bare
string, enrichments additionally requires a nonempty list, and metadata
(an object, always truthy when present) via presence alone. -/
def websetParams (a : Args) : CreateRequest :=
  { search := { query := a.query
                count := if jsTruthyInt a.count then a.count else none }
    criteria := if jsTruthyStr a.criteria then a.criteria else none
    entity := if jsTruthyStr a.entityType then a.entityType.map EntityConfig.mk else none
    enrichments := match a.enrichments with
      | some es => if es.length > 0 then some es else none
      | none => none
    metadata := a.metadata }

/-- A transport-level error raised by the HTTP client: the optional
remote response status code, the optional message field of the response
body, and the error object message itself. -/
structure AxiosError where
  responseStatus : Option Nat
  responseMessage : Option String
  message : String
deriving DecidableEq, Repr

/-- An exception inside the handler body: either a transport error from
an HTTP call, or a plain Error carrying only a message (the throws at
lines 125, 135 and 143). -/
inductive Exc where
  | axios (e : AxiosError)
  | jsError (message : String)
deriving DecidableEq, Repr

/-- The network oracle: the outcome the remote service gives each call
of this invocation. Status and items calls are indexed by the poll
attempt number at which they are issued. -/
structure Network where
  createResult : Except AxiosError String
  pollResult : Nat → Except AxiosError String
  itemsResult : Nat → Except AxiosError String

/-- Observable side effects of one invocation, in program order. -/
inductive Event where
  | createCall
  | statusCall (attempt : Nat)
  | itemsCall (attempt : Nat)
  | sleep (ms : Nat)
deriving DecidableEq, Repr

/-- The structured body of a successful tool result: either the
non-waiting acknowledgement object (lines 90-94) or the items payload
returned verbatim (line 120). -/
inductive SuccessBody where
  | initiated (message : String) (websetId : String) (status : String)
  | items (payload : String)
deriving DecidableEq, Repr

/-- The value handed back to the caller: plain content, or content with
the isError flag set and a human readable text. -/
inductive ToolResult where
  | ok (body : SuccessBody)
  | err (text : String)
deriving DecidableEq, Repr

/-- The trace of side effects and the final result of one invocation. -/
structure HandlerOutput where
  events : List Event
  result : ToolResult
deriving DecidableEq, Repr

/-- maxAttempts constant (line 100). -/
def maxAttempts : Nat := 12

/-- pollInterval constant in milliseconds (line 101). -/
def pollInterval : Nat := 5000

/-- Message of the Error thrown when the final poll attempt raises
(line 135). -/
def timeoutAfterAttemptsMsg : String :=
  "Failed to get WebSet status after " ++ toString maxAttempts ++ " attempts."

/-- The polling loop (lines 103-139) followed by the timeout throw at
line 143. The first argument after the oracle is the current attempt
number; the final argument is how many attempts are still allowed
including the current one, so the source loop is entered with remaining
equal to maxAttempts, remaining of 1 means the current attempt is the
final one (attempt equals maxAttempts in the source), and remaining of 0
means the loop condition failed and control reached the throw at line
143. The inner catch (lines 131-138) receives every exception thrown in
the try body: a failed status call, a failed items call, and also the
job-failure Error thrown at line 125; it rethrows a timeout-style Error
on the final attempt and otherwise sleeps and lets the loop continue. A
sleep also follows every non-terminal status (line 129), including on
the final attempt, before the loop condition is rechecked. -/
def pollLoop (net : Network) (attempt : Nat) : Nat → List Event × Except Exc SuccessBody
  | 0 => ([], Except.error (Exc.jsError "WebSet research timed out."))
  | r + 1 =>
    match net.pollResult attempt with
    | Except.ok status =>
      if status = "completed" ∨ status = "idle" then
        match net.itemsResult attempt with
        | Except.ok payload =>
          ([Event.statusCall attempt, Event.itemsCall attempt],
           Except.ok (SuccessBody.items payload))
        | Except.error _ =>
          if r = 0 then
            ([Event.statusCall attempt, Event.itemsCall attempt],
             Except.error (Exc.jsError timeoutAfterAttemptsMsg))
          else
            let rest := pollLoop net (attempt + 1) r
            (Event.statusCall attempt :: Event.itemsCall attempt ::
               Event.sleep pollInterval :: rest.1, rest.2)
      else if status = "failed" ∨ status = "error" then
        if r = 0 then
          ([Event.statusCall attempt],
           Except.error (Exc.jsError timeoutAfterAttemptsMsg))
        else
          let rest := pollLoop net (attempt + 1) r
          (Event.statusCall attempt :: Event.sleep pollInterval :: rest.1, rest.2)
      else
        if r = 0 then
          ([Event.statusCall attempt, Event.sleep pollInterval],
           Except.error (Exc.jsError "WebSet research timed out."))
        else
          let rest := pollLoop net (attempt + 1) r
          (Event.statusCall attempt :: Event.sleep pollInterval :: rest.1, rest.2)
    | Except.error _ =>
      if r = 0 then
        ([Event.statusCall attempt],
         Except.error (Exc.jsError timeoutAfterAttemptsMsg))
      else
        let rest := pollLoop net (attempt + 1) r
        (Event.statusCall attempt :: Event.sleep pollInterval :: rest.1, rest.2)

/-- The body of the outer try (lines 50-145): the creation call, then
either the immediate acknowledgement (waitForCompletion false) or the
polling loop. An Except.error value is an exception propagating to the
outer catch. -/
def runBody (a : Args) (net : Network) : List Event × Except Exc SuccessBody :=
  match net.createResult with
  | Except.error e => ([Event.createCall], Except.error (Exc.axios e))
  | Except.ok websetId =>
    if a.waitForCompletion = false then
      ([Event.createCall],
       Except.ok (SuccessBody.initiated
         "WebSet research initiated successfully." websetId "running"))
    else
      let rest := pollLoop net 1 maxAttempts
      (Event.createCall :: rest.1, rest.2)

/-- Rendering of the status code in the axios branch of the outer catch
(line 150): response status with JS-truthiness fallback to unknown. -/
def axiosStatusText (e : AxiosError) : String :=
  match e.responseStatus with
  | some n => if n = 0 then "unknown" else toString n
  | none => "unknown"

/-- Rendering of the message in the axios branch of the outer catch
(line 151): the response body message with JS-truthiness fallback to
the error object message. -/
def axiosMessageText (e : AxiosError) : String :=
  match e.responseMessage with
  | some m => if m = "" then e.message else m
  | none => e.message

/-- The outer catch (lines 147-162): every exception is converted into
an error-flagged tool result with a human readable text. -/
def catchToResult : Exc → ToolResult
  | Exc.axios e =>
    ToolResult.err ("WebSet API error (" ++ axiosStatusText e ++ "): " ++ axiosMessageText e)
  | Exc.jsError m => ToolResult.err ("WebSet operation failed: " ++ m)

/-- The full handler (lines 34-163). The env argument is the value of
the EXA_API_KEY environment variable (none when unset); line 41 defaults
it to the empty string and line 42 fails fast on a falsy key before any
HTTP client is created. -/
def handler (env : Option String) (a : Args) (net : Network) : HandlerOutput :=
  let apiKey := env.getD ""
  if apiKey = "" then
    { events := [],
      result := ToolResult.err "Configuration error: EXA_API_KEY is missing." }
  else
    let r := runBody a net
    match r.2 with
    | Except.ok body => { events := r.1, result := ToolResult.ok body }
    | Except.error e => { events := r.1, result := catchToResult e }

end WebsetResearch

namespace WebsetResearch

/-- Concrete arguments used by the C2 witness. -/
def argsC2 : Args :=
  { query := "find companies", count := some 5, criteria := some "c",
    entityType := some "company", enrichments := none, metadata := none,
    waitForCompletion := true }

/-- A network oracle used by witnesses in which every call succeeds. -/
def netC2 : Network :=
  { createResult := Except.ok "ws-2"
    pollResult := fun _ => Except.ok "running"
    itemsResult := fun _ => Except.ok "items-2" }

/-- C2: when the EXA_API_KEY environment variable is unset or empty, the
handler returns the configuration error synchronously with an empty
event trace: no create, status, or items HTTP call is made. -/
theorem missing_key_no_network_call (env : Option String) (a : Args) (net : Network)
    (h : env = none ∨ env = some "") :
    handler env a net =
      { events := [],
        result := ToolResult.err "Configuration error: EXA_API_KEY is missing." } := by
  rcases h with h | h <;> subst h <;> rfl

/-- Witness for C2 at the concrete input env = none. -/
theorem missing_key_no_network_call_witness :
    handler none argsC2 netC2 =
      { events := [],
        result := ToolResult.err "Configuration error: EXA_API_KEY is missing." } :=
  missing_key_no_network_call none argsC2 netC2 (Or.inl rfl)

/-- Concrete arguments used by the C3 witness: only the query is given. -/
def argsC3 : Args :=
  { query := "vp of engineering", count := none, criteria := none,
    entityType := none, enrichments := none, metadata := none,
    waitForCompletion := true }

/-- C3: when only the query is given (count, criteria, entityType,
enrichments and metadata all absent), the creation payload contains
exactly the search.query field; every optional key is absent (none),
never present as a null or empty placeholder. -/
theorem query_only_payload (a : Args) (h1 : a.count = none) (h2 : a.criteria = none)
    (h3 : a.entityType = none) (h4 : a.enrichments = none) (h5 : a.metadata = none) :
    websetParams a =
      { search := { query := a.query, count := none }, criteria := none,
        entity := none, enrichments := none, metadata := none } := by
  simp [websetParams, jsTruthyInt, jsTruthyStr, h1, h2, h3, h4, h5]

/-- Witness for C3 at concrete query-only arguments. -/
theorem query_only_payload_witness :
    websetParams argsC3 =
      { search := { query := argsC3.query, count := none }, criteria := none,
        entity := none, enrichments := none, metadata := none } :=
  query_only_payload argsC3 rfl rfl rfl rfl rfl

/-- C9: optional-field presence in the payload is decided by JS
truthiness, not by the field being supplied: a supplied count of 0, a
supplied empty criteria string, and a supplied empty entityType string
each produce exactly the payload of the corresponding absent field. -/
theorem truthiness_decides_presence (a : Args) :
    websetParams { a with count := some 0 } = websetParams { a with count := none } ∧
    websetParams { a with criteria := some "" } = websetParams { a with criteria := none } ∧
    websetParams { a with entityType := some "" } = websetParams { a with entityType := none } := by
  refine ⟨?_, ?_, ?_⟩ <;> rfl

end WebsetResearch

namespace WebsetResearch

/-- Concrete arguments used by the C4 witness: waitForCompletion false. -/
def argsC4 : Args :=
  { query := "q4", count := none, criteria := none, entityType := none,
    enrichments := none, metadata := none, waitForCompletion := false }

/-- A network oracle used by the C4 witness. -/
def netC4 : Network :=
  { createResult := Except.ok "ws-4"
    pollResult := fun _ => Except.ok "running"
    itemsResult := fun _ => Except.ok "items-4" }

/-- C4: with waitForCompletion false and a successful creation call, the
handler returns immediately with the initiated message, the webset id
and the status marker running; the event trace is exactly the creation
call, so the status and items endpoints are never invoked. -/
theorem no_wait_returns_immediately (env : Option String) (a : Args) (net : Network)
    (wid : String) (hkey : env.getD "" ≠ "") (hwait : a.waitForCompletion = false)
    (hcreate : net.createResult = Except.ok wid) :
    handler env a net =
      { events := [Event.createCall],
        result := ToolResult.ok (SuccessBody.initiated
          "WebSet research initiated successfully." wid "running") } := by
  simp [handler, runBody, hkey, hwait, hcreate]

/-- Witness for C4 at concrete inputs. -/
theorem no_wait_returns_immediately_witness :
    handler (some "key") argsC4 netC4 =
      { events := [Event.createCall],
        result := ToolResult.ok (SuccessBody.initiated
          "WebSet research initiated successfully." "ws-4" "running") } :=
  no_wait_returns_immediately (some "key") argsC4 netC4 "ws-4"
    (by decide) rfl rfl

end WebsetResearch

namespace WebsetResearch

/-- Concrete arguments used by witnesses of waiting invocations. -/
def argsWaiting : Args :=
  { query := "qWait", count := none, criteria := none, entityType := none,
    enrichments := none, metadata := none, waitForCompletion := true }

/-- Network oracle for the C5 witness: running, running, completed. -/
def netC5 : Network :=
  { createResult := Except.ok "ws-5"
    pollResult := fun k => if k ≥ 3 then Except.ok "completed" else Except.ok "running"
    itemsResult := fun _ => Except.ok "payload-5" }

/-- C5: in a waiting invocation whose first three status responses are
running, running, completed, the handler performs exactly 3 status
polls, then exactly one items call, and returns the items payload
unmodified as the success result; the event trace is given in full. -/
theorem poll_three_then_items (env : Option String) (a : Args) (net : Network)
    (wid payload : String) (hkey : env.getD "" ≠ "") (hwait : a.waitForCompletion = true)
    (hcreate : net.createResult = Except.ok wid)
    (h1 : net.pollResult 1 = Except.ok "running")
    (h2 : net.pollResult 2 = Except.ok "running")
    (h3 : net.pollResult 3 = Except.ok "completed")
    (hi : net.itemsResult 3 = Except.ok payload) :
    handler env a net =
      { events := [Event.createCall, Event.statusCall 1, Event.sleep pollInterval,
                   Event.statusCall 2, Event.sleep pollInterval, Event.statusCall 3,
                   Event.itemsCall 3],
        result := ToolResult.ok (SuccessBody.items payload) } := by
  simp [handler, runBody, maxAttempts, pollLoop, hkey, hwait, hcreate, h1, h2, h3, hi]

/-- Witness for C5 at concrete inputs. -/
theorem poll_three_then_items_witness :
    handler (some "key") argsWaiting netC5 =
      { events := [Event.createCall, Event.statusCall 1, Event.sleep pollInterval,
                   Event.statusCall 2, Event.sleep pollInterval, Event.statusCall 3,
                   Event.itemsCall 3],
        result := ToolResult.ok (SuccessBody.items "payload-5") } :=
  poll_three_then_items (some "key") argsWaiting netC5 "ws-5" "payload-5"
    (by decide) rfl rfl rfl rfl rfl rfl

/-- Network oracle for the C6 witness: the status stays running forever. -/
def netC6 : Network :=
  { createResult := Except.ok "ws-6"
    pollResult := fun _ => Except.ok "running"
    itemsResult := fun _ => Except.ok "items-6" }

/-- C6: in a waiting invocation whose status responses stay running for
all 12 allowed attempts, the handler performs exactly 12 status polls
with the fixed 5000 ms sleep between every pair of consecutive attempts
(the source also sleeps once more after the 12th) and then returns the
timeout error. The event trace is given in full. -/
theorem poll_exhaustion_times_out (env : Option String) (a : Args) (net : Network)
    (wid : String) (hkey : env.getD "" ≠ "") (hwait : a.waitForCompletion = true)
    (hcreate : net.createResult = Except.ok wid)
    (hrun : ∀ k, 1 ≤ k → k ≤ maxAttempts → net.pollResult k = Except.ok "running") :
    handler env a net =
      { events := [Event.createCall,
                   Event.statusCall 1, Event.sleep pollInterval,
                   Event.statusCall 2, Event.sleep pollInterval,
                   Event.statusCall 3, Event.sleep pollInterval,
                   Event.statusCall 4, Event.sleep pollInterval,
                   Event.statusCall 5, Event.sleep pollInterval,
                   Event.statusCall 6, Event.sleep pollInterval,
                   Event.statusCall 7, Event.sleep pollInterval,
                   Event.statusCall 8, Event.sleep pollInterval,
                   Event.statusCall 9, Event.sleep pollInterval,
                   Event.statusCall 10, Event.sleep pollInterval,
                   Event.statusCall 11, Event.sleep pollInterval,
                   Event.statusCall 12, Event.sleep pollInterval],
        result := ToolResult.err "WebSet operation failed: WebSet research timed out." } := by
  simp [handler, runBody, maxAttempts, pollLoop, catchToResult, hkey, hwait, hcreate,
    hrun 1 (by norm_num) (by norm_num [maxAttempts]),
    hrun 2 (by norm_num) (by norm_num [maxAttempts]),
    hrun 3 (by norm_num) (by norm_num [maxAttempts]),
    hrun 4 (by norm_num) (by norm_num [maxAttempts]),
    hrun 5 (by norm_num) (by norm_num [maxAttempts]),
    hrun 6 (by norm_num) (by norm_num [maxAttempts]),
    hrun 7 (by norm_num) (by norm_num [maxAttempts]),
    hrun 8 (by norm_num) (by norm_num [maxAttempts]),
    hrun 9 (by norm_num) (by norm_num [maxAttempts]),
    hrun 10 (by norm_num) (by norm_num [maxAttempts]),
    hrun 11 (by norm_num) (by norm_num [maxAttempts]),
    hrun 12 (by norm_num) (by norm_num [maxAttempts])]

/-- Witness for C6 at concrete inputs. -/
theorem poll_exhaustion_times_out_witness :
    handler (some "key") argsWaiting netC6 =
      { events := [Event.createCall,
                   Event.statusCall 1, Event.sleep pollInterval,
                   Event.statusCall 2, Event.sleep pollInterval,
                   Event.statusCall 3, Event.sleep pollInterval,
                   Event.statusCall 4, Event.sleep pollInterval,
                   Event.statusCall 5, Event.sleep pollInterval,
                   Event.statusCall 6, Event.sleep pollInterval,
                   Event.statusCall 7, Event.sleep pollInterval,
                   Event.statusCall 8, Event.sleep pollInterval,
                   Event.statusCall 9, Event.sleep pollInterval,
                   Event.statusCall 10, Event.sleep pollInterval,
                   Event.statusCall 11, Event.sleep pollInterval,
                   Event.statusCall 12, Event.sleep pollInterval],
        result := ToolResult.err "WebSet operation failed: WebSet research timed out." } :=
  poll_exhaustion_times_out (some "key") argsWaiting netC6 "ws-6"
    (by decide) rfl rfl (fun _ _ _ => rfl)

end WebsetResearch

namespace WebsetResearch

/-- C7: a transport-level failure of the status check on a non-final
attempt (remaining allowance at least 2) records the error and
continues the loop with the next attempt after the fixed sleep, while
on the final allowed attempt (remaining allowance 1) the loop aborts
with the timeout-style failure message instead of continuing. -/
theorem transport_error_continue_or_timeout (net : Network) (k r : Nat) (e : AxiosError)
    (he : net.pollResult k = Except.error e) :
    (pollLoop net k (r + 2) =
      (Event.statusCall k :: Event.sleep pollInterval :: (pollLoop net (k + 1) (r + 1)).1,
       (pollLoop net (k + 1) (r + 1)).2)) ∧
    pollLoop net k 1 =
      ([Event.statusCall k], Except.error (Exc.jsError timeoutAfterAttemptsMsg)) := by
  constructor <;> simp [pollLoop, he]

/-- Concrete transport error used by the C7 witness. -/
def errC7 : AxiosError :=
  { responseStatus := some 503, responseMessage := none, message := "socket hang up" }

/-- Network oracle for the C7 witness: every status check errors. -/
def netC7 : Network :=
  { createResult := Except.ok "ws-7"
    pollResult := fun _ => Except.error errC7
    itemsResult := fun _ => Except.ok "items-7" }

/-- Witness for C7 at concrete inputs. -/
theorem transport_error_continue_or_timeout_witness :
    (pollLoop netC7 1 2 =
      (Event.statusCall 1 :: Event.sleep pollInterval :: (pollLoop netC7 2 1).1,
       (pollLoop netC7 2 1).2)) ∧
    pollLoop netC7 1 1 =
      ([Event.statusCall 1], Except.error (Exc.jsError timeoutAfterAttemptsMsg)) :=
  transport_error_continue_or_timeout netC7 1 0 errC7 rfl

/-- C10: when a status poll reports completed but the subsequent items
fetch fails at the transport level, the failure is caught by the same
inner catch as a status-check failure: on a non-final attempt the loop
continues with the next attempt after the fixed sleep (re-polling
status and possibly fetching items later), and on the final allowed
attempt the loop aborts with the timeout-style failure message. -/
theorem items_failure_treated_as_poll_error (net : Network) (k r : Nat) (e : AxiosError)
    (hs : net.pollResult k = Except.ok "completed")
    (hi : net.itemsResult k = Except.error e) :
    (pollLoop net k (r + 2) =
      (Event.statusCall k :: Event.itemsCall k :: Event.sleep pollInterval ::
         (pollLoop net (k + 1) (r + 1)).1,
       (pollLoop net (k + 1) (r + 1)).2)) ∧
    pollLoop net k 1 =
      ([Event.statusCall k, Event.itemsCall k],
       Except.error (Exc.jsError timeoutAfterAttemptsMsg)) := by
  constructor <;> simp [pollLoop, hs, hi]

/-- Concrete transport error used by the C10 witness. -/
def errC10 : AxiosError :=
  { responseStatus := some 500, responseMessage := some "internal", message := "request failed" }

/-- Network oracle for the C10 witness: status is always completed and
the items fetch always errors. -/
def netC10 : Network :=
  { createResult := Except.ok "ws-10"
    pollResult := fun _ => Except.ok "completed"
    itemsResult := fun _ => Except.error errC10 }

/-- Witness for C10 at concrete inputs. -/
theorem items_failure_treated_as_poll_error_witness :
    (pollLoop netC10 1 2 =
      (Event.statusCall 1 :: Event.itemsCall 1 :: Event.sleep pollInterval ::
         (pollLoop netC10 2 1).1,
       (pollLoop netC10 2 1).2)) ∧
    pollLoop netC10 1 1 =
      ([Event.statusCall 1, Event.itemsCall 1],
       Except.error (Exc.jsError timeoutAfterAttemptsMsg)) :=
  items_failure_treated_as_poll_error netC10 1 0 errC10 rfl rfl

end WebsetResearch

namespace WebsetResearch

/-- C8: the handler never lets a fault escape: its result is always
either an ok body or an error-flagged text, and any exception that
reaches the workflow boundary while the key is present is converted
into a structured error text, carrying the remote status code and
response message for a transport error and the underlying error text
for a plain Error (job failure or timeout). -/
theorem all_errors_become_structured_results (env : Option String) (a : Args) (net : Network) :
    ((∃ b, (handler env a net).result = ToolResult.ok b) ∨
     (∃ m, (handler env a net).result = ToolResult.err m)) ∧
    (∀ e, env.getD "" ≠ "" → (runBody a net).2 = Except.error (Exc.axios e) →
      (handler env a net).result =
        ToolResult.err ("WebSet API error (" ++ axiosStatusText e ++ "): " ++
          axiosMessageText e)) ∧
    (∀ m, env.getD "" ≠ "" → (runBody a net).2 = Except.error (Exc.jsError m) →
      (handler env a net).result = ToolResult.err ("WebSet operation failed: " ++ m)) := by
  refine ⟨?_, ?_, ?_⟩
  · cases hres : (handler env a net).result with
    | ok b => exact Or.inl ⟨b, rfl⟩
    | err m => exact Or.inr ⟨m, rfl⟩
  · intro e hkey he
    simp [handler, hkey, he, catchToResult]
  · intro m hkey hm
    simp [handler, hkey, hm, catchToResult]

/-- Concrete arguments used by the C8 witness. -/
def argsC8 : Args :=
  { query := "q8", count := none, criteria := none, entityType := none,
    enrichments := none, metadata := none, waitForCompletion := true }

/-- Concrete transport error used by the C8 witness: the creation call
is rejected by the remote service. -/
def errC8 : AxiosError :=
  { responseStatus := some 401, responseMessage := some "invalid api key",
    message := "Request failed with status code 401" }

/-- Network oracle for the C8 witness: the creation call errors. -/
def netC8 : Network :=
  { createResult := Except.error errC8
    pollResult := fun _ => Except.ok "running"
    itemsResult := fun _ => Except.ok "items-8" }

/-- Witness for C8 at concrete inputs: a rejected creation call becomes
the structured API error text with the remote code and message. -/
theorem all_errors_become_structured_results_witness :
    (handler (some "key") argsC8 netC8).result =
      ToolResult.err ("WebSet API error (" ++ axiosStatusText errC8 ++ "): " ++
        axiosMessageText errC8) :=
  (all_errors_become_structured_results (some "key") argsC8 netC8).2.1 errC8
    (by decide) rfl

/-- Concrete arguments used for the C1 failing input. -/
def argsC1 : Args :=
  { query := "q1", count := none, criteria := none, entityType := none,
    enrichments := none, metadata := none, waitForCompletion := true }

/-- Network oracle for the C1 failing input: creation succeeds and
every status poll reports the failed state. -/
def netC1 : Network :=
  { createResult := Except.ok "ws-1"
    pollResult := fun _ => Except.ok "failed"
    itemsResult := fun _ => Except.ok "items-1" }

/-- C1: evaluation of the handler at the failing input. A waiting
invocation whose first status poll reports failed does not abort: the
job-failure Error thrown at line 125 is raised inside the same try
whose catch at line 131 treats every exception as a transient poll
error, so the handler goes on to poll 11 more times (12 status calls in
total, with a sleep between consecutive attempts) and finally returns
the timeout-style message, which names the attempt count and not the
reported failed status. This contradicts the claim that the workflow
aborts immediately with a job-failure error naming the status and
performs no further polls. -/
theorem failed_status_keeps_polling :
    handler (some "key") argsC1 netC1 =
      { events := [Event.createCall,
                   Event.statusCall 1, Event.sleep pollInterval,
                   Event.statusCall 2, Event.sleep pollInterval,
                   Event.statusCall 3, Event.sleep pollInterval,
                   Event.statusCall 4, Event.sleep pollInterval,
                   Event.statusCall 5, Event.sleep pollInterval,
                   Event.statusCall 6, Event.sleep pollInterval,
                   Event.statusCall 7, Event.sleep pollInterval,
                   Event.statusCall 8, Event.sleep pollInterval,
                   Event.statusCall 9, Event.sleep pollInterval,
                   Event.statusCall 10, Event.sleep pollInterval,
                   Event.statusCall 11, Event.sleep pollInterval,
                   Event.statusCall 12],
        result := ToolResult.err
          "WebSet operation failed: Failed to get WebSet status after 12 attempts." } := by
  rfl

end WebsetResearch
